import Mathlib

/-!
Shallow embedding of `src/quantix/quantix.py` (pure-Python client for
Quantis PCI quantum random number generators).

Pure functions of the source become Lean functions.  Methods that touch
the operating system are modelled by passing the outcome of the single
OS call they perform as an explicit oracle argument, and every function
additionally returns the list of OS calls it issued, so that "no OS call
is made" and "exactly one call is made" are provable statements.
Machine integers are `Nat`/`Int` with explicit `% 2^w` where the source
constrains a width (the 4-byte ioctl buffer).  Python exceptions become
an error type with one constructor per raise site.
-/

/-- `DEV_PREFIX = "/dev/qrandom"` from the source (device path stem). -/
def devRoot : String := "/dev/qrandom"

def _IOC_NRBITS : Nat := 8
def _IOC_TYPEBITS : Nat := 8
def _IOC_SIZEBITS : Nat := 14
def _IOC_DIRBITS : Nat := 2

def _IOC_NRSHIFT : Nat := 0
def _IOC_TYPESHIFT : Nat := _IOC_NRSHIFT + _IOC_NRBITS
def _IOC_SIZESHIFT : Nat := _IOC_TYPESHIFT + _IOC_TYPEBITS
def _IOC_DIRSHIFT : Nat := _IOC_SIZESHIFT + _IOC_SIZEBITS

def _IOC_NONE : Nat := 0
def _IOC_WRITE : Nat := 1
def _IOC_READ : Nat := 2

/-- `_IOC(dir, type, nr, size)`: construct an ioctl command number.
`ord(type)` is `Char.toNat`. -/
def _IOC (dir : Nat) (type : Char) (nr : Nat) (size : Nat) : Nat :=
  (dir <<< _IOC_DIRSHIFT)
    ||| (type.toNat <<< _IOC_TYPESHIFT)
    ||| (nr <<< _IOC_NRSHIFT)
    ||| (size <<< _IOC_SIZESHIFT)

/-- `_IOR(type, nr, size)`: construct a read ioctl command. -/
def _IOR (type : Char) (nr : Nat) (size : Nat) : Nat :=
  _IOC _IOC_READ type nr size

/-- `_IOW(type, nr, size)`: construct a write ioctl command. -/
def _IOW (type : Char) (nr : Nat) (size : Nat) : Nat :=
  _IOC _IOC_WRITE type nr size

/-- `_IO(type, nr)`: construct a simple ioctl command (no data transfer). -/
def _IO (type : Char) (nr : Nat) : Nat :=
  _IOC _IOC_NONE type nr 0

def QUANTIS_IOCTL_GET_DRIVER_VERSION : Nat := _IOR 'q' 0 4
def QUANTIS_IOCTL_GET_CARD_COUNT : Nat := _IOR 'q' 1 4
def QUANTIS_IOCTL_GET_MODULES_MASK : Nat := _IOR 'q' 2 4
def QUANTIS_IOCTL_GET_BOARD_VERSION : Nat := _IOR 'q' 3 4
def QUANTIS_IOCTL_RESET_BOARD : Nat := _IO 'q' 4
def QUANTIS_IOCTL_ENABLE_MODULE : Nat := _IOW 'q' 5 4
def QUANTIS_IOCTL_DISABLE_MODULE : Nat := _IOW 'q' 6 4
def QUANTIS_IOCTL_GET_MODULES_STATUS : Nat := _IOR 'q' 8 4
def QUANTIS_IOCTL_GET_PCI_BUS_DEVICE_ID : Nat := _IOR 'q' 9 4

/-- The set `IOCTL_READ_OPS` from the source, as a list (membership is
what the source uses it for). -/
def IOCTL_READ_OPS : List Nat :=
  [QUANTIS_IOCTL_GET_DRIVER_VERSION,
   QUANTIS_IOCTL_GET_CARD_COUNT,
   QUANTIS_IOCTL_GET_MODULES_MASK,
   QUANTIS_IOCTL_GET_BOARD_VERSION,
   QUANTIS_IOCTL_GET_MODULES_STATUS,
   QUANTIS_IOCTL_GET_PCI_BUS_DEVICE_ID]

/-- The set `IOCTL_WRITE_OPS` from the source. -/
def IOCTL_WRITE_OPS : List Nat :=
  [QUANTIS_IOCTL_ENABLE_MODULE, QUANTIS_IOCTL_DISABLE_MODULE]

/-- `DeviceType` enum: PCI = 1, USB = 2 (USB unsupported). -/
inductive DeviceType where
  | PCI
  | USB
deriving DecidableEq, Repr

/-- Python exceptions, one constructor per raise site of the source.
`valueError` is Python `ValueError`; the others are `QuantixException`
raise sites, distinguished by their message. -/
inductive QErr where
  /-- `QuantixException("USB devices not supported")` in `__init__`. -/
  | usbUnsupported
  /-- `QuantixException(f"Device \x7bpath\x7d not found...")` in `__init__`. -/
  | quantixNotFound (path : String)
  /-- `QuantixException("Permission denied...")` in `__enter__`. -/
  | quantixPermission (path : String)
  /-- `QuantixException(f"Cannot access \x7bpath\x7d: ...")` in `__enter__`. -/
  | quantixCannotAccess (path : String)
  /-- `QuantixException("Device is not open...")` in `_ioctl` and `read`. -/
  | quantixNotOpen (path : String)
  /-- `QuantixException(f"ioctl failed on \x7bpath\x7d...")` in `_ioctl`. -/
  | quantixIoctlFailed (path : String)
  /-- `QuantixException(f"Read \x7bactual\x7d bytes, expected \x7brequested\x7d")` in `read`. -/
  | quantixShortRead (path : String) (actual : Nat) (requested : Int)
  /-- `QuantixException(f"Failed to read from \x7bpath\x7d...")` in `read`. -/
  | quantixReadFailed (path : String)
  /-- Python `ValueError` with the given message. -/
  | valueError (msg : String)
deriving DecidableEq, Repr

/-- OS-level calls the source can issue, recorded as a trace. -/
inductive OsCall where
  /-- `fcntl.ioctl(fd, request, buf)` with a 4-byte result buffer. -/
  | ioctlRead (fd : Nat) (request : Nat)
  /-- `fcntl.ioctl(fd, request, buf)` with a 4-byte argument buffer. -/
  | ioctlWrite (fd : Nat) (request : Nat) (arg : Nat)
  /-- `fcntl.ioctl(fd, request)` with no payload. -/
  | ioctlNone (fd : Nat) (request : Nat)
  /-- `self._fd.read(n)`. -/
  | fread (fd : Nat) (n : Int)
  /-- `open(path, "rb", buffering=0)`. -/
  | fopen (path : String)
  /-- `self._fd.close()`. -/
  | fclose (fd : Nat)
deriving DecidableEq, Repr

/-- The `Quantix` object state: device type, index, derived path, and
the file descriptor (`None` iff the handle is closed). -/
structure Quantix where
  device_type : DeviceType
  device_number : Int
  device_path : String
  _fd : Option Nat
deriving DecidableEq, Repr

/-- `Quantix.__init__`: validates type, computes the path, checks the
device node exists (`pathExists` is the `Path(...).exists()` oracle),
and leaves the handle closed (`_fd = None`). -/
def Quantix.init (device_type : DeviceType) (device_number : Int)
    (pathExists : String → Bool) : Except QErr Quantix :=
  if device_type = DeviceType.USB then
    .error .usbUnsupported
  else
    let path := devRoot ++ toString device_number
    if pathExists path then
      .ok ⟨device_type, device_number, path, none⟩
    else
      .error (.quantixNotFound path)

/-- Outcome of the single `open(...)` call `__enter__` may perform. -/
inductive OpenOutcome where
  | ok (fd : Nat)
  | permissionError
  | otherError
deriving DecidableEq, Repr

/-- `Quantix.__enter__`: opens the device only when `_fd is None`;
wraps `PermissionError` and other exceptions into `QuantixException`. -/
def Quantix.__enter__ (q : Quantix) (os : OpenOutcome) :
    Except QErr Quantix × List OsCall :=
  match q._fd with
  | some _ => (.ok q, [])
  | none =>
    match os with
    | .ok fd => (.ok { q with _fd := some fd }, [.fopen q.device_path])
    | .permissionError => (.error (.quantixPermission q.device_path), [.fopen q.device_path])
    | .otherError => (.error (.quantixCannotAccess q.device_path), [.fopen q.device_path])

/-- Outcome of the single `self._fd.close()` call `close` may perform. -/
inductive CloseOutcome where
  | ok
  | raises
deriving DecidableEq, Repr

/-- `Quantix.close`: if open, closes the descriptor — swallowing any
exception (`except Exception: pass`) — and sets `_fd = None` in the
`finally` block; if already closed, does nothing.  It never raises,
hence the result type carries no error. -/
def Quantix.close (q : Quantix) (os : CloseOutcome) : Quantix × List OsCall :=
  match q._fd with
  | none => (q, [])
  | some fd =>
    match os with
    | .ok => ({ q with _fd := none }, [.fclose fd])
    | .raises => ({ q with _fd := none }, [.fclose fd])

/-- `Quantix._ioctl`: raises if the handle is closed, otherwise issues
exactly one `fcntl.ioctl` call, choosing the buffer discipline by
membership of `request` in the read / write op sets.  `os = none`
models the call raising `OSError`; `os = some v` models success, with
`v` the content the driver left in the 4-byte result buffer (hence the
decoded value is `v % 2^32`).  The source never assigns `self._fd`
here, so no updated handle is returned. -/
def Quantix._ioctl (q : Quantix) (request : Nat) (arg : Nat) (os : Option Nat) :
    Except QErr Nat × List OsCall :=
  match q._fd with
  | none => (.error (.quantixNotOpen q.device_path), [])
  | some fd =>
    if request ∈ IOCTL_READ_OPS then
      match os with
      | some v => (.ok (v % 2 ^ 32), [.ioctlRead fd request])
      | none => (.error (.quantixIoctlFailed q.device_path), [.ioctlRead fd request])
    else if request ∈ IOCTL_WRITE_OPS then
      match os with
      | some _ => (.ok 0, [.ioctlWrite fd request arg])
      | none => (.error (.quantixIoctlFailed q.device_path), [.ioctlWrite fd request arg])
    else
      match os with
      | some _ => (.ok 0, [.ioctlNone fd request])
      | none => (.error (.quantixIoctlFailed q.device_path), [.ioctlNone fd request])

/-- `Quantix.read`: validates `size > 0` first (raising `ValueError`
before anything else, even on a closed handle), then requires an open
handle, then performs exactly one `self._fd.read(size)` call.  The
oracle `os = some data` gives the bytes the OS returned; `os = none`
models `read` raising a non-Quantix exception.  Any byte count other
than `size` raises the short-read `QuantixException`.  The source never
assigns `self._fd` here, so no updated handle is returned. -/
def Quantix.read (q : Quantix) (size : Int) (os : Option (List Nat)) :
    Except QErr (List Nat) × List OsCall :=
  if size ≤ 0 then
    (.error (.valueError ("Size must be positive")), [])
  else
    match q._fd with
    | none => (.error (.quantixNotOpen q.device_path), [])
    | some fd =>
      match os with
      | none => (.error (.quantixReadFailed q.device_path), [.fread fd size])
      | some data =>
        if (data.length : Int) ≠ size then
          (.error (.quantixShortRead q.device_path data.length size), [.fread fd size])
        else
          (.ok data, [.fread fd size])

/-- Little-endian byte decoding: `struct.unpack` with native (x86,
little-endian) byte order on formats `"H"`, `"I"`, `"Q"` applied to the
exact number of bytes those formats require. -/
def fromLE (bs : List Nat) : Nat :=
  bs.foldr (fun b acc => b + 2 ^ 8 * acc) 0

/-- `Quantix.read_int`: 4 bytes via `read`, decoded as an unsigned
32-bit integer (`struct.unpack("I", data)`). -/
def Quantix.read_int (q : Quantix) (os : Option (List Nat)) :
    Except QErr Nat × List OsCall :=
  let r := q.read 4 os
  (r.1.map fromLE, r.2)

/-- `Quantix.read_short`: 2 bytes via `read`, decoded as an unsigned
16-bit integer (`struct.unpack("H", data)`). -/
def Quantix.read_short (q : Quantix) (os : Option (List Nat)) :
    Except QErr Nat × List OsCall :=
  let r := q.read 2 os
  (r.1.map fromLE, r.2)

/-- Bit length of a natural number, written with structural fuel so the
kernel can evaluate it on concrete inputs. -/
def bitLenAux : Nat → Nat → Nat
  | 0, _ => 0
  | fuel + 1, n => if n = 0 then 0 else bitLenAux fuel (n / 2) + 1

/-- Bit length: `bitLen 0 = 0`, otherwise the position of the highest
set bit plus one. -/
def bitLen (n : Nat) : Nat := bitLenAux n n

/-- Round `num / den` to the nearest integer, ties to even. -/
def roundRNE (num den : Nat) : Nat :=
  let q := num / den
  let r := num % den
  if 2 * r < den then q
  else if den < 2 * r then q + 1
  else if q % 2 = 0 then q else q + 1

/-- CPython float true division `v / 2^k` for a nonnegative int `v`:
the mathematically exact quotient, correctly rounded to IEEE-754
binary64 (53 significant bits, round to nearest, ties to even), which
is what CPython computes for int/int division.  Because the divisor is
a power of two, rounding the quotient equals rounding `v` itself to 53
significant bits and then dividing exactly; quotients of the source lie
in `[0, 1)` and at scales `2^-64` and above, so subnormal rounding and
overflow never occur and this model is exact on the domain used. -/
def pyDivPow2 (v : Nat) (k : Nat) : ℚ :=
  let bl := bitLen v
  if bl ≤ 53 then (v : ℚ) / 2 ^ k
  else ((roundRNE v (2 ^ (bl - 53)) * 2 ^ (bl - 53) : ℕ) : ℚ) / 2 ^ k

/-- `Quantix.read_float`: `self.read_int() / (2**32)` under CPython
float semantics. -/
def Quantix.read_float (q : Quantix) (os : Option (List Nat)) :
    Except QErr ℚ × List OsCall :=
  let r := q.read_int os
  (r.1.map (fun value => pyDivPow2 value 32), r.2)

/-- `Quantix.read_double`: 8 bytes via `read`, decoded as an unsigned
64-bit integer (`struct.unpack("Q", data)`), then `value / (2**64)`
under CPython float semantics. -/
def Quantix.read_double (q : Quantix) (os : Option (List Nat)) :
    Except QErr ℚ × List OsCall :=
  let r := q.read 8 os
  (r.1.map (fun data => pyDivPow2 (fromLE data) 64), r.2)

/-- `Quantix.read_int_range`: validates `min_val <= max_val` first
(raising `ValueError` before any read), then reads one 32-bit value and
reduces it into the range by Python `%` (which agrees with `Int.emod`
for a positive modulus). -/
def Quantix.read_int_range (q : Quantix) (min_val max_val : Int)
    (os : Option (List Nat)) : Except QErr Int × List OsCall :=
  if min_val > max_val then
    (.error (.valueError ("min_val must be <= max_val")), [])
  else
    let range_size := max_val - min_val + 1
    let r := q.read_int os
    (r.1.map (fun value => min_val + (value : Int) % range_size), r.2)

/-- `Quantix.read_bytes_list`: `list(self.read(size))` — bytes as a
list of integers. -/
def Quantix.read_bytes_list (q : Quantix) (size : Int) (os : Option (List Nat)) :
    Except QErr (List Nat) × List OsCall :=
  q.read size os

/-- `Quantix.enable_module`: validates `0 <= module <= 3` (raising
`ValueError` otherwise, before `_ioctl` and hence before any OS call),
then issues the enable-module write ioctl with the module number as
argument. -/
def Quantix.enable_module (q : Quantix) (module : Int) (os : Option Nat) :
    Except QErr Unit × List OsCall :=
  if ¬(0 ≤ module ∧ module ≤ 3) then
    (.error (.valueError ("Module number must be 0-3")), [])
  else
    let r := q._ioctl QUANTIS_IOCTL_ENABLE_MODULE module.toNat os
    (r.1.map (fun _ => ()), r.2)

/-- `Quantix.disable_module`: same validation as `enable_module`, then
the disable-module write ioctl. -/
def Quantix.disable_module (q : Quantix) (module : Int) (os : Option Nat) :
    Except QErr Unit × List OsCall :=
  if ¬(0 ≤ module ∧ module ≤ 3) then
    (.error (.valueError ("Module number must be 0-3")), [])
  else
    let r := q._ioctl QUANTIS_IOCTL_DISABLE_MODULE module.toNat os
    (r.1.map (fun _ => ()), r.2)

/-- `Quantix.reset_board`: the no-payload reset ioctl. -/
def Quantix.reset_board (q : Quantix) (os : Option Nat) :
    Except QErr Unit × List OsCall :=
  let r := q._ioctl QUANTIS_IOCTL_RESET_BOARD 0 os
  (r.1.map (fun _ => ()), r.2)

/-- `Quantix.get_modules_status`: the modules-status read ioctl. -/
def Quantix.get_modules_status (q : Quantix) (os : Option Nat) :
    Except QErr Nat × List OsCall :=
  q._ioctl QUANTIS_IOCTL_GET_MODULES_STATUS 0 os

/-- Population count with structural fuel (kernel-evaluable); equals
the number of set bits, which is what `bin(status).count("1")` computes
for a nonnegative int. -/
def popcountAux : Nat → Nat → Nat
  | 0, _ => 0
  | fuel + 1, n => if n = 0 then 0 else n % 2 + popcountAux fuel (n / 2)

/-- Number of set bits of a natural number. -/
def popcount (n : Nat) : Nat := popcountAux n n

/-- `Quantix.get_modules_count`: `bin(self.get_modules_status()).count("1")`
— one status query, then a pure popcount. -/
def Quantix.get_modules_count (q : Quantix) (os : Option Nat) :
    Except QErr Nat × List OsCall :=
  let r := q.get_modules_status os
  (r.1.map popcount, r.2)

/-! ### Claims -/

/-- OR of a low field below `2^k` with a value shifted up by `k` is
their sum. -/
theorem lor_shiftLeft_eq_add (b a k : Nat) (h : b < 2 ^ k) :
    b ||| (a <<< k) = 2 ^ k * a + b := by
  rw [Nat.shiftLeft_eq, Nat.mul_comm a (2 ^ k), Nat.lor_comm]
  exact (Nat.mul_add_lt_is_or h a).symm

/-- C1: with every field within its width (`nr`, `type` in 8 bits,
`size` in 14 bits, `dir` in 2 bits), the encoder returns the packed
integer with `nr` at bit 0, the type tag's code point at bit 8, the
size at bit 16 and the direction at bit 30 — stated as the closed-form
sum of the shifted fields — and the nine section-6 codes equal this
formula applied to their table rows. -/
theorem ioc_packs_fields_ascending (d : Nat) (t : Char) (n s : Nat)
    (hd : d < 2 ^ 2) (ht : t.toNat < 2 ^ 8) (hn : n < 2 ^ 8) (hs : s < 2 ^ 14) :
    _IOC d t n s = n + 2 ^ 8 * t.toNat + 2 ^ 16 * s + 2 ^ 30 * d ∧
    QUANTIS_IOCTL_GET_DRIVER_VERSION
      = (0 <<< 0) ||| (Char.toNat 'q' <<< 8) ||| (4 <<< 16) ||| (2 <<< 30) ∧
    QUANTIS_IOCTL_GET_CARD_COUNT
      = (1 <<< 0) ||| (Char.toNat 'q' <<< 8) ||| (4 <<< 16) ||| (2 <<< 30) ∧
    QUANTIS_IOCTL_GET_MODULES_MASK
      = (2 <<< 0) ||| (Char.toNat 'q' <<< 8) ||| (4 <<< 16) ||| (2 <<< 30) ∧
    QUANTIS_IOCTL_GET_BOARD_VERSION
      = (3 <<< 0) ||| (Char.toNat 'q' <<< 8) ||| (4 <<< 16) ||| (2 <<< 30) ∧
    QUANTIS_IOCTL_RESET_BOARD
      = (4 <<< 0) ||| (Char.toNat 'q' <<< 8) ||| (0 <<< 16) ||| (0 <<< 30) ∧
    QUANTIS_IOCTL_ENABLE_MODULE
      = (5 <<< 0) ||| (Char.toNat 'q' <<< 8) ||| (4 <<< 16) ||| (1 <<< 30) ∧
    QUANTIS_IOCTL_DISABLE_MODULE
      = (6 <<< 0) ||| (Char.toNat 'q' <<< 8) ||| (4 <<< 16) ||| (1 <<< 30) ∧
    QUANTIS_IOCTL_GET_MODULES_STATUS
      = (8 <<< 0) ||| (Char.toNat 'q' <<< 8) ||| (4 <<< 16) ||| (2 <<< 30) ∧
    QUANTIS_IOCTL_GET_PCI_BUS_DEVICE_ID
      = (9 <<< 0) ||| (Char.toNat 'q' <<< 8) ||| (4 <<< 16) ||| (2 <<< 30) := by
  refine ⟨?_, by decide, by decide, by decide, by decide, by decide, by decide,
    by decide, by decide, by decide⟩
  have e : _IOC d t n s
      = ((d <<< 30) ||| (t.toNat <<< 8)) ||| (n <<< 0) ||| (s <<< 16) := rfl
  have hXlt : 2 ^ 8 * t.toNat + n < 2 ^ 16 := by
    have h1 : t.toNat ≤ 2 ^ 8 - 1 := Nat.le_sub_one_of_lt ht
    have h2 : 2 ^ 8 * t.toNat ≤ 2 ^ 8 * (2 ^ 8 - 1) := Nat.mul_le_mul_left _ h1
    have h3 : (2 : Nat) ^ 8 * (2 ^ 8 - 1) + 2 ^ 8 = 2 ^ 16 := by norm_num
    omega
  have hYlt : 2 ^ 16 * s + (2 ^ 8 * t.toNat + n) < 2 ^ 30 := by
    have h1 : s ≤ 2 ^ 14 - 1 := Nat.le_sub_one_of_lt hs
    have h2 : 2 ^ 16 * s ≤ 2 ^ 16 * (2 ^ 14 - 1) := Nat.mul_le_mul_left _ h1
    have h3 : (2 : Nat) ^ 16 * (2 ^ 14 - 1) + 2 ^ 16 = 2 ^ 30 := by norm_num
    omega
  have c1 : (n <<< 0) = n := by rw [Nat.shiftLeft_eq]; simp
  rw [e, c1, Nat.lor_assoc ((d <<< 30)) (t.toNat <<< 8) n, Nat.lor_assoc]
  rw [show t.toNat <<< 8 ||| n = n ||| (t.toNat <<< 8) from Nat.lor_comm _ _]
  rw [lor_shiftLeft_eq_add n t.toNat 8 hn]
  rw [lor_shiftLeft_eq_add (2 ^ 8 * t.toNat + n) s 16 hXlt]
  rw [Nat.lor_comm (d <<< 30) _,
    lor_shiftLeft_eq_add (2 ^ 16 * s + (2 ^ 8 * t.toNat + n)) d 30 hYlt]
  ring

/-- C1 witness: the formula at the driver-version row. -/
theorem ioc_packs_fields_ascending_witness :
    _IOC 2 'q' 0 4 = 0 + 2 ^ 8 * Char.toNat 'q' + 2 ^ 16 * 4 + 2 ^ 30 * 2 :=
  (ioc_packs_fields_ascending 2 'q' 0 4 (by decide) (by decide) (by decide)
    (by decide)).1

/-- The nine (direction, op number, size) rows of the section-6 table,
all with type tag 'q'. -/
def quantisTable : List (Nat × Nat × Nat) :=
  [(2, 0, 4), (2, 1, 4), (2, 2, 4), (2, 3, 4), (0, 4, 0),
   (1, 5, 4), (1, 6, 4), (2, 8, 4), (2, 9, 4)]

/-- C2: the encoder is deterministic (recomputation yields the same
value; it is a total function, so there is no failure mode), the nine
tuples of the section-6 table are pairwise distinct, and their encoded
codes are pairwise distinct — i.e. the encoding is injective over the
section-6 tuples. -/
theorem ioc_deterministic_injective_on_table :
    (∀ d t n s, _IOC d t n s = _IOC d t n s) ∧
    quantisTable.Nodup ∧
    (quantisTable.map (fun r => _IOC r.1 'q' r.2.1 r.2.2)).Nodup :=
  ⟨fun _ _ _ _ => rfl, by decide, by decide⟩

/-- A concrete open handle (descriptor 3) used to instantiate theorems
with hypotheses on concrete inputs. -/
def sampleOpen : Quantix := ⟨DeviceType.PCI, 0, "/dev/qrandom0", some 3⟩

/-- A concrete closed handle used to instantiate theorems with
hypotheses on concrete inputs. -/
def sampleClosed : Quantix := ⟨DeviceType.PCI, 0, "/dev/qrandom0", none⟩

/-- C3: on a closed handle (never acquired, or released), every control
operation and — for any requested count `n > 0` — every raw read fails
with the not-open `QuantixException`, with an empty OS-call trace; the
embedding of `_ioctl` and `read` returns no updated handle because the
source never assigns handle state in them, so the state is unchanged by
construction. -/
theorem closed_handle_ops_fail_not_open (q : Quantix) (request arg : Nat)
    (os : Option Nat) (n : Int) (osr : Option (List Nat))
    (hclosed : q._fd = none) :
    q._ioctl request arg os = (.error (.quantixNotOpen q.device_path), []) ∧
    (0 < n → q.read n osr = (.error (.quantixNotOpen q.device_path), [])) := by
  constructor
  · simp [Quantix._ioctl, hclosed]
  · intro hn
    simp [Quantix.read, hclosed, Int.not_le.mpr hn]

/-- C3 witness: a concrete closed handle, a control request and a
1-byte read. -/
theorem closed_handle_ops_fail_not_open_witness :
    sampleClosed._ioctl QUANTIS_IOCTL_GET_BOARD_VERSION 0 (some 5)
      = (.error (.quantixNotOpen ("/dev/qrandom0")), []) ∧
    ((0 : Int) < 1 → sampleClosed.read 1 (some [42])
      = (.error (.quantixNotOpen ("/dev/qrandom0")), [])) :=
  closed_handle_ops_fail_not_open sampleClosed QUANTIS_IOCTL_GET_BOARD_VERSION
    0 (some 5) 1 (some [42]) rfl

/-- C4: on an open handle with `n > 0`, `read` issues exactly one OS
read; if that read yields exactly `n` bytes they are returned as-is
(no padding, no retry), and if it yields fewer than `n` bytes (zero
included) the call fails with the short-read error carrying the actual
and requested counts; for `n ≤ 0`, `read` fails with `ValueError`
before any OS call, on any handle, open or closed. -/
theorem read_exact_or_short (q : Quantix) (fd : Nat) (n : Int) (bs : List Nat)
    (hopen : q._fd = some fd) (hn : 0 < n) :
    ((bs.length : Int) = n → q.read n (some bs) = (.ok bs, [.fread fd n])) ∧
    ((bs.length : Int) < n →
      q.read n (some bs)
        = (.error (.quantixShortRead q.device_path bs.length n), [.fread fd n])) ∧
    (∀ (q2 : Quantix) (m : Int) (os : Option (List Nat)), m ≤ 0 →
      q2.read m os = (.error (.valueError ("Size must be positive")), [])) := by
  refine ⟨fun he => ?_, fun hlt => ?_, fun q2 m os hm => ?_⟩
  · simp [Quantix.read, hopen, Int.not_le.mpr hn, he]
  · simp [Quantix.read, hopen, Int.not_le.mpr hn, Int.ne_of_lt hlt]
  · simp [Quantix.read, hm]

/-- C4 witness: a 2-byte read returning 2 bytes on the concrete open
handle. -/
theorem read_exact_or_short_witness :
    sampleOpen.read 2 (some [7, 9]) = (.ok [7, 9], [.fread 3 2]) :=
  (read_exact_or_short sampleOpen 3 2 [7, 9] rfl (by decide)).1 (by decide)

/-- C5: `read_int_range` fails with `ValueError` before any OS call
when `min_val > max_val` (on any handle); on an open handle with a
4-byte OS response it succeeds after exactly one 4-byte read, returning
`min_val` itself when `min_val = max_val`, and
`min_val + u % (max_val - min_val + 1)` for the freshly decoded 32-bit
value `u` when `min_val < max_val`, a value that always lies in
`[min_val, max_val]`. -/
theorem read_int_range_spec (q : Quantix) (fd : Nat) (min_val max_val : Int)
    (bs : List Nat) (hopen : q._fd = some fd) (hlen : bs.length = 4) :
    (∀ (q2 : Quantix) (os2 : Option (List Nat)), min_val > max_val →
      q2.read_int_range min_val max_val os2
        = (.error (.valueError ("min_val must be <= max_val")), [])) ∧
    (min_val = max_val →
      q.read_int_range min_val max_val (some bs) = (.ok min_val, [.fread fd 4])) ∧
    (min_val < max_val →
      q.read_int_range min_val max_val (some bs)
        = (.ok (min_val + (fromLE bs : Int) % (max_val - min_val + 1)),
           [.fread fd 4]) ∧
      min_val ≤ min_val + (fromLE bs : Int) % (max_val - min_val + 1) ∧
      min_val + (fromLE bs : Int) % (max_val - min_val + 1) ≤ max_val) := by
  have hread : q.read 4 (some bs) = (.ok bs, [.fread fd 4]) :=
    (read_exact_or_short q fd 4 bs hopen (by omega)).1 (by omega)
  refine ⟨fun q2 os2 hgt => ?_, fun heq => ?_, fun hlt => ?_⟩
  · simp [Quantix.read_int_range, hgt]
  · simp [Quantix.read_int_range, Quantix.read_int, hread, heq, Functor.map,
      Except.map]
  · have hpos : 0 < max_val - min_val + 1 := by omega
    have hnonneg : 0 ≤ (fromLE bs : Int) % (max_val - min_val + 1) :=
      Int.emod_nonneg _ (by omega)
    have hub : (fromLE bs : Int) % (max_val - min_val + 1) < max_val - min_val + 1 :=
      Int.emod_lt_of_pos _ hpos
    refine ⟨?_, by omega, by omega⟩
    simp [Quantix.read_int_range, Quantix.read_int, hread, Functor.map,
      Except.map, (show ¬min_val > max_val by omega)]

/-- C5 witness: range [10, 13] with device bytes decoding to 5 on the
concrete open handle gives 10 + 5 % 4 = 11. -/
theorem read_int_range_spec_witness :
    (10 : Int) < 13 ∧
    sampleOpen.read_int_range 10 13 (some [5, 0, 0, 0])
      = (.ok (10 + (fromLE [5, 0, 0, 0] : Int) % (13 - 10 + 1)), [.fread 3 4]) :=
  ⟨by decide,
   ((read_int_range_spec sampleOpen 3 10 13 [5, 0, 0, 0] rfl rfl).2.2
     (by decide)).1⟩

/-- C6 (failing input): with all-ones device bytes, the 64-bit value is
`2^64 - 1`, whose exact fraction `(2^64-1)/2^64` lies within `2^-64` of
1 — closer than the largest binary64 below 1 (which is `1 - 2^-53`) —
so CPython's correctly rounded float division returns exactly 1.0 and
`read_double` returns a value outside `[0.0, 1.0)`, contradicting its
own docstring.  (`read_float` is unaffected: its 32-bit numerator fits
the 53-bit significand, so its division is exact and below 1.) -/
theorem read_double_returns_one_on_all_ones_bytes :
    sampleOpen.read_double (some [255, 255, 255, 255, 255, 255, 255, 255])
      = (.ok 1, [.fread 3 8]) ∧ ¬(1 : ℚ) < 1 := by
  refine ⟨?_, by norm_num⟩
  have hread : sampleOpen.read 8 (some [255, 255, 255, 255, 255, 255, 255, 255])
      = (.ok [255, 255, 255, 255, 255, 255, 255, 255], [.fread 3 8]) := by
    simp [Quantix.read, sampleOpen]
  have hle : fromLE [255, 255, 255, 255, 255, 255, 255, 255]
      = 18446744073709551615 := by decide
  have hbl : bitLen 18446744073709551615 = 64 := by decide
  have hrr : roundRNE 18446744073709551615 2048 = 9007199254740992 := by
    decide
  have hdiv : pyDivPow2 18446744073709551615 64 = 1 := by
    rw [pyDivPow2, hbl]
    norm_num [hrr]
  simp [Quantix.read_double, hread, hle, hdiv, Functor.map, Except.map]

/-- C7: acquiring an already-open handle is a success no-op that keeps
the existing descriptor and issues no OS call; releasing an open handle
closes the descriptor and marks the state closed with the same result
whatever the close-time outcome (errors swallowed; `close` returns no
error by type, so it never raises); a second release after a release is
a no-op, and releasing a handle that is closed (never opened, or opened
and released) is a no-op for any number of consecutive calls. -/
theorem acquire_noop_release_idempotent (q q2 : Quantix) (fd : Nat)
    (os : OpenOutcome) (co co2 co3 : CloseOutcome)
    (hopen : q._fd = some fd) (hclosed : q2._fd = none) :
    q.__enter__ os = (.ok q, []) ∧
    q.close co = ({ q with _fd := none }, [.fclose fd]) ∧
    ((q.close co).1).close co2 = ((q.close co).1, []) ∧
    q2.close co3 = (q2, []) := by
  refine ⟨?_, ?_, ?_, ?_⟩
  · simp [Quantix.__enter__, hopen]
  · cases co <;> simp [Quantix.close, hopen]
  · cases co <;> cases co2 <;> simp [Quantix.close, hopen]
  · cases co3 <;> simp [Quantix.close, hclosed]

/-- C7 witness: the concrete open and closed handles, with a close-time
error on the first release. -/
theorem acquire_noop_release_idempotent_witness :
    sampleOpen.__enter__ (.ok 9) = (.ok sampleOpen, []) ∧
    sampleOpen.close .raises = ({ sampleOpen with _fd := none }, [.fclose 3]) ∧
    ((sampleOpen.close .raises).1).close .ok = ((sampleOpen.close .raises).1, []) ∧
    sampleClosed.close .ok = (sampleClosed, []) :=
  acquire_noop_release_idempotent sampleOpen sampleClosed 3 (.ok 9)
    .raises .ok .ok rfl rfl

/-- C8: for the supported device type, construction computes the device
path as the pure function prefix-plus-index, succeeds with a closed
handle (no descriptor) exactly when a node exists at that path, and
fails with the not-found `QuantixException` exactly when none does. -/
theorem init_not_found_iff_path_missing (i : Int) (ex : String → Bool) :
    Quantix.init DeviceType.PCI i ex
      = if ex (devRoot ++ toString i)
        then .ok ⟨DeviceType.PCI, i, devRoot ++ toString i, none⟩
        else .error (.quantixNotFound (devRoot ++ toString i)) := by
  simp [Quantix.init]

/-- C9: a module number outside [0, 3] makes `enable_module` and
`disable_module` fail with `ValueError` with an empty OS-call trace,
on any handle, open or closed; a module number inside [0, 3] on an open
handle passes validation and issues exactly one control operation (the
corresponding write ioctl), whatever its OS outcome. -/
theorem module_number_validated (q q2 : Quantix) (fd : Nat) (m m2 : Int)
    (os os2 : Option Nat) (hopen : q._fd = some fd)
    (hgood : 0 ≤ m ∧ m ≤ 3) (hbad : ¬(0 ≤ m2 ∧ m2 ≤ 3)) :
    q2.enable_module m2 os2
      = (.error (.valueError ("Module number must be 0-3")), []) ∧
    q2.disable_module m2 os2
      = (.error (.valueError ("Module number must be 0-3")), []) ∧
    (q.enable_module m os).2 = [.ioctlWrite fd QUANTIS_IOCTL_ENABLE_MODULE m.toNat] ∧
    (q.disable_module m os).2 = [.ioctlWrite fd QUANTIS_IOCTL_DISABLE_MODULE m.toNat] := by
  have hener : QUANTIS_IOCTL_ENABLE_MODULE ∉ IOCTL_READ_OPS := by decide
  have henew : QUANTIS_IOCTL_ENABLE_MODULE ∈ IOCTL_WRITE_OPS := by decide
  have hdisr : QUANTIS_IOCTL_DISABLE_MODULE ∉ IOCTL_READ_OPS := by decide
  have hdisw : QUANTIS_IOCTL_DISABLE_MODULE ∈ IOCTL_WRITE_OPS := by decide
  refine ⟨?_, ?_, ?_, ?_⟩
  · simp [Quantix.enable_module, hbad]
  · simp [Quantix.disable_module, hbad]
  · cases os <;>
      simp [Quantix.enable_module, Quantix._ioctl, hopen, hgood, hener, henew]
  · cases os <;>
      simp [Quantix.disable_module, Quantix._ioctl, hopen, hgood, hdisr, hdisw]

/-- C9 witness: module 2 on the concrete open handle issues one write
ioctl; module 4 fails validation even on a closed handle. -/
theorem module_number_validated_witness :
    sampleClosed.enable_module 4 (some 0)
      = (.error (.valueError ("Module number must be 0-3")), []) ∧
    sampleClosed.disable_module 4 (some 0)
      = (.error (.valueError ("Module number must be 0-3")), []) ∧
    (sampleOpen.enable_module 2 (some 0)).2
      = [.ioctlWrite 3 QUANTIS_IOCTL_ENABLE_MODULE (Int.toNat 2)] ∧
    (sampleOpen.disable_module 2 (some 0)).2
      = [.ioctlWrite 3 QUANTIS_IOCTL_DISABLE_MODULE (Int.toNat 2)] :=
  module_number_validated sampleOpen sampleClosed 3 2 4 (some 0) (some 0)
    rfl (by decide) (by decide)

/-- `popcountAux` of a number below `2^k` is at most `k` (given enough
fuel). -/
theorem popcountAux_le (fuel : Nat) : ∀ n k : Nat, n < 2 ^ k → n ≤ fuel →
    popcountAux fuel n ≤ k := by
  induction fuel with
  | zero =>
    intro n k _ hf
    simp [popcountAux]
  | succ f ih =>
    intro n k hn hf
    by_cases h0 : n = 0
    · simp [popcountAux, h0]
    · have hk : 1 ≤ k := by
        by_contra hc
        have : k = 0 := by omega
        subst this
        simp at hn
        omega
      have he : 2 * 2 ^ (k - 1) = 2 ^ k := by
        rw [← Nat.pow_succ']
        congr 1
        omega
      have hdiv : n / 2 < 2 ^ (k - 1) := by
        apply Nat.div_lt_of_lt_mul
        omega
      have hfu : n / 2 ≤ f := by omega
      have hstep : popcountAux (f + 1) n = n % 2 + popcountAux f (n / 2) := by
        simp [popcountAux, h0]
      rw [hstep]
      have h1 : n % 2 ≤ 1 := by omega
      have h2 : popcountAux f (n / 2) ≤ k - 1 := ih (n / 2) (k - 1) hdiv hfu
      omega

/-- C10: on an open handle, `get_modules_count` performs the single
modules-status query and returns the popcount of the status value the
driver wrote into the 4-byte buffer, with no further control
operation; whenever the status obeys the 4-bit contract (below 16), the
count is at most 4 (hence in [0, 4]). -/
theorem modules_count_is_popcount_of_status (q : Quantix) (fd : Nat)
    (s : Nat) (hopen : q._fd = some fd) :
    q.get_modules_count (some s)
      = (.ok (popcount (s % 2 ^ 32)),
         [.ioctlRead fd QUANTIS_IOCTL_GET_MODULES_STATUS]) ∧
    (s < 16 → popcount s ≤ 4) := by
  have hmem : QUANTIS_IOCTL_GET_MODULES_STATUS ∈ IOCTL_READ_OPS := by decide
  constructor
  · simp [Quantix.get_modules_count, Quantix.get_modules_status,
      Quantix._ioctl, hopen, hmem, Functor.map, Except.map]
  · intro hs
    exact popcountAux_le s s 4 (by norm_num; omega) (Nat.le_refl s)

/-- C10 witness: status 5 (modules 0 and 2 working) on the concrete
open handle gives count `popcount 5 = 2`. -/
theorem modules_count_is_popcount_of_status_witness :
    sampleOpen.get_modules_count (some 5)
      = (.ok (popcount (5 % 2 ^ 32)),
         [.ioctlRead 3 QUANTIS_IOCTL_GET_MODULES_STATUS]) ∧
    (5 < 16 → popcount 5 ≤ 4) :=
  modules_count_is_popcount_of_status sampleOpen 3 5 rfl
